import Mathlib

/-!
Shallow embedding of the gemini-business registration service
(src/core/register_service.py, src/util/gemini_auth_utils.py,
src/util/mail_providers.py) and proofs about its claimed properties.

Browser, HTTP and filesystem effects are modelled by explicit inputs:
each poll of a remote mailbox, each per-iteration observation of the
Selenium driver, and the persisted store content are parameters of the
embedded functions.  Machine-level details that the claims do not touch
(percent-decoding in query strings, real clock time, the strftime
rendering of expiry timestamps) are abstracted and noted at the
definition they concern.
-/

namespace GeminiBusiness

/-- Python list-of-chars starts-with test, used to build substring search. -/
def charsStartWith : List Char → List Char → Bool
  | _, [] => true
  | [], _ :: _ => false
  | c :: cs, p :: ps => c == p && charsStartWith cs ps

/-- Substring containment over char lists (scan every suffix). -/
def charsContain : List Char → List Char → Bool
  | [], pat => charsStartWith [] pat
  | c :: cs, pat => charsStartWith (c :: cs) pat || charsContain cs pat

/-- Python `pat in s` (substring containment). -/
def pyIn (pat s : String) : Bool := charsContain s.data pat.data

/-- Python `s.lower()` (ASCII case folding suffices for the sentinels used). -/
def pyLower (s : String) : String := String.mk (s.data.map Char.toLower)

/-- Python `s.strip()`: drop whitespace at both ends. -/
def pyStrip (s : String) : String :=
  String.mk (((s.data.dropWhile Char.isWhitespace).reverse.dropWhile Char.isWhitespace).reverse)

/-- Split a char list at every occurrence of `sep`, keeping empty groups,
like Python `s.split(sep)` for a single-character separator. -/
def splitChars (sep : Char) : List Char → List (List Char)
  | [] => [[]]
  | c :: rest =>
    let r := splitChars sep rest
    if c == sep then [] :: r
    else
      match r with
      | [] => [[c]]
      | g :: gs => (c :: g) :: gs

/-- Python `s.split(sep)` for a one-character separator. -/
def pySplit (s : String) (sep : Char) : List String :=
  (splitChars sep s.data).map String.mk

/-- Join strings with a separator (used to restore the tail of a split). -/
def joinWith (sep : String) : List String → String
  | [] => ""
  | [x] => x
  | x :: y :: ys => x ++ sep ++ joinWith sep (y :: ys)

/-- Python `a or b` for an optional string `a`: both `None` and the empty
string are falsy and fall through to `b`. -/
def pyOrStr (a : Option String) (b : String) : String :=
  match a with
  | some s => if s == "" then b else s
  | none => b

/-!
Mail providers (src/util/mail_providers.py).
Each iteration of a `while time.time() - start < timeout` polling loop is
one element of a poll list; the list running out models the timeout
elapsing.
-/

/-- One mail as listed by the Cloudflare worker endpoint
(`GET /admin/mails`): the fields the code reads.  `metadataCode` is the
value of `json.loads(mail["metadata"])["ai_extract"]["result"]` when the
metadata string parses and has those keys; `none` models any exception
raised while decoding it. -/
structure CfMail where
  address : String
  source : String
  metadataCode : Option String
deriving DecidableEq

/-- One poll of the Cloudflare inbox: `fail` covers a transport exception
and a non-200 status (both fall through to the next poll); `mails l` is a
200 response whose `results` list is `l` (a missing `results` key yields
the empty list). -/
inductive CfPoll where
  | fail
  | mails (l : List CfMail)
deriving DecidableEq

/-- Scan of one poll's mail list (mail_providers.py lines 164-169):
the first mail matching both address and source has its metadata decoded;
a decoding exception aborts the whole poll.  `none` = exception raised,
`some none` = list exhausted with no match, `some (some c)` = code `c`. -/
def cfScanMails (email sender : String) : List CfMail → Option (Option String)
  | [] => some none
  | m :: ms =>
    if m.address == email && m.source == sender then
      match m.metadataCode with
      | some code => some (some code)
      | none => none
    else cfScanMails email sender ms

/-- `CloudflareMailProvider.get_verification_code` (lines 148-177): poll
until a matching mail yields a code or the polls run out (timeout). -/
def cf_get_verification_code (email sender : String) : List CfPoll → Option String
  | [] => none
  | CfPoll.fail :: ps => cf_get_verification_code email sender ps
  | CfPoll.mails l :: ps =>
    match cfScanMails email sender l with
    | some (some code) => some code
    | _ => cf_get_verification_code email sender ps

/-- One mail as returned by the ChatGPT mailbox endpoint
(`GET /api/emails?email=`).  `fromSender` is the message's sender as held
by the remote service; the code never reads it.  `htmlContent` is the
`html_content` field (`none` = key absent), `content` is the `content`
field with its `''` default. -/
structure GptMail where
  fromSender : String
  htmlContent : Option String
  content : String
deriving DecidableEq

/-- Python `latest_email.get('html_content') or latest_email.get('content', '')`. -/
def gptHtml (m : GptMail) : String :=
  match m.htmlContent with
  | some h => if h == "" then m.content else h
  | none => m.content

/-- Word character for the `\b` boundaries of the regex `\b(\d{6})\b`. -/
def isWordChar (c : Char) : Bool := c.isAlphanum || c == '_'

/-- Whether a six-digit run with a right word-boundary starts here. -/
def sixDigitsHere (l : List Char) : Bool :=
  (l.take 6).length == 6 && (l.take 6).all Char.isDigit &&
    (match l.drop 6 with
     | [] => true
     | d :: _ => !isWordChar d)

/-- Leftmost match of `\b(\d{6})\b`; `prev` is the character before the
current position (`none` at the start of the string). -/
def findSixDigit : Option Char → List Char → Option String
  | _, [] => none
  | prev, c :: cs =>
    if (match prev with
        | none => true
        | some p => !isWordChar p) && sixDigitsHere (c :: cs) then
      some (String.mk ((c :: cs).take 6))
    else findSixDigit (some c) cs

/-- Python `re.search(r'\b(\d{6})\b', html)`, returning the matched group. -/
def regexSixDigit (html : String) : Option String := findSixDigit none html.data

/-- Code extraction from a message's HTML (mail_providers.py lines
245-258).  `findSpan` abstracts BeautifulSoup's lookup of the first
`span.verification-code` element's text; the strip/length-6 check and the
regex fallback are concrete. -/
def gptExtractCode (findSpan : String → Option String) (html : String) : Option String :=
  match findSpan html with
  | some txt =>
    if (pyStrip txt).length == 6 then some (pyStrip txt)
    else regexSixDigit html
  | none => regexSixDigit html

/-- One poll of the ChatGPT inbox: `fail` covers a transport exception and
a non-200 status; `emails l` is a 200 response whose `data.emails` list is
`l` (missing keys default to the empty list). -/
inductive GptPoll where
  | fail
  | emails (l : List GptMail)

/-- `ChatGPTMailProvider.get_verification_code` (lines 223-273): each poll
looks only at the newest message `emails[0]`; the `sender` argument is
accepted but never read. -/
def gpt_get_verification_code (findSpan : String → Option String)
    (email sender : String) : List GptPoll → Option String
  | [] => none
  | GptPoll.fail :: ps => gpt_get_verification_code findSpan email sender ps
  | GptPoll.emails [] :: ps => gpt_get_verification_code findSpan email sender ps
  | GptPoll.emails (m :: _) :: ps =>
    if gptHtml m == "" then gpt_get_verification_code findSpan email sender ps
    else
      match gptExtractCode findSpan (gptHtml m) with
      | some code => some code
      | none => gpt_get_verification_code findSpan email sender ps

/-- A mail matching both filters of the Cloudflare scan. -/
def cfMailMatches (email sender : String) (m : CfMail) : Bool :=
  m.address == email && m.source == sender

/-- Whether a Cloudflare poll contains a mail from the requested sender to
the requested address. -/
def cfPollHasSenderMatch (email sender : String) : CfPoll → Bool
  | CfPoll.fail => false
  | CfPoll.mails l => l.any (cfMailMatches email sender)

/-- Whether a ChatGPT poll would yield a code (nonempty newest message
with an extractable code). -/
def gptPollYields (findSpan : String → Option String) : GptPoll → Bool
  | GptPoll.fail => false
  | GptPoll.emails [] => false
  | GptPoll.emails (m :: _) => !(gptHtml m == "") && (gptExtractCode findSpan (gptHtml m)).isSome

/-- The HTTP request issued by `ChatGPTMailProvider.create_email`:
endpoint and API-key header. -/
structure GptCreateRequest where
  url : String
  apiKey : String
deriving DecidableEq

/-- Remote response to the generate-email request.  `dataEmail` is
`r.json()['data']['email']`; `none` models a missing key (the raised
KeyError is caught by the surrounding except). -/
structure GptCreateResp where
  status : Nat
  success : Bool
  dataEmail : Option String
deriving DecidableEq

/-- `ChatGPTMailProvider.create_email` (mail_providers.py lines 202-221).
The `domain` parameter is accepted but never used; the whole body is
wrapped in try/except returning `none` on any failure.  Returns the
request issued together with the resulting address. -/
def chatgpt_create_email (apiUrl apiKey : String) (domain : Option String)
    (resp : Option GptCreateResp) : GptCreateRequest × Option String :=
  let req : GptCreateRequest := { url := apiUrl ++ "/api/generate-email", apiKey := apiKey }
  match resp with
  | none => (req, none)
  | some r =>
    if r.status == 200 && r.success then
      match r.dataEmail with
      | some e => (req, some e)
      | none => (req, none)
    else (req, none)

/-!
Auth helper (src/util/gemini_auth_utils.py).
-/

/-- A browser cookie as returned by `driver.get_cookies()`: the fields the
code reads.  `expiry` is the cookie's expiry timestamp in seconds
(`none` = key absent). -/
structure Cookie where
  name : String
  value : String
  expiry : Option Int
deriving DecidableEq

/-- The page state an extraction attempt observes: current URL and cookies. -/
structure PageState where
  url : String
  cookies : List Cookie
deriving DecidableEq

/-- Extracted credential fields.  `expires_at` keeps the shifted timestamp
`expiry - 43200`; the Python strftime rendering of that timestamp is
abstracted away. -/
structure ConfigData where
  csesidx : String
  config_id : String
  secure_c_ses : String
  host_c_oses : String
  expires_at : Option Int
deriving DecidableEq

/-- Result dict of the extraction helpers:
`{"success": bool, "config": dict|None, "error": str|None}`. -/
structure ExtractResult where
  success : Bool
  config : Option ConfigData
  error : Option String
deriving DecidableEq

/-- The `config_id` scan (gemini_auth_utils.py lines 138-143): walk
`url.split('/')` and take the part after the first `'cid'` that has a
successor, split at `'?'`. -/
def findCid : List String → Option String
  | "cid" :: next :: _ => some ((pySplit next '?').headD "")
  | _ :: rest => findCid rest
  | [] => none

/-- The query component of a URL as `urlparse` yields it: the text after
the first `'?'` of the pre-fragment part. -/
def urlQuery (url : String) : String :=
  match pySplit ((pySplit url '#').headD "") '?' with
  | [] => ""
  | [_] => ""
  | _ :: rest => joinWith "?" rest

/-- `parse_qs` pair list: split the query at `'&'`, each part at its first
`'='`; parts with an empty value are dropped (`keep_blank_values` is off).
Percent-decoding is not modelled. -/
def parseQsPairs (q : String) : List (String × String) :=
  (pySplit q '&').filterMap fun pair =>
    match pySplit pair '=' with
    | [] => none
    | [_] => none
    | n :: rest =>
      let v := joinWith "=" rest
      if v == "" then none else some (n, v)

/-- `parse_qs(query).get(key, [None])[0]`: the first value bound to `key`. -/
def qsFirst (q key : String) : Option String :=
  ((parseQsPairs q).find? (fun p => p.1 == key)).map (·.2)

/-- `{c['name']: c for c in cookies}` followed by `.get(n, {})`: the last
cookie with the given name wins. -/
def cookieLookup (cookies : List Cookie) (n : String) : Option Cookie :=
  cookies.reverse.find? (fun c => c.name == n)

/-- Python truthiness of an optional string (`None` and `''` are falsy). -/
def truthyOptStr : Option String → Bool
  | some s => !(s == "")
  | none => false

/-- `expires_at` computation: `expiry - 43200` when the cookie has a
truthy `expiry` (a literal `0` is falsy in Python and yields `None`). -/
def cookieExpiresAt : Option Cookie → Option Int
  | none => none
  | some c =>
    match c.expiry with
    | none => none
    | some e => if e == 0 then none else some (e - 43200)

/-- `GeminiAuthHelper.extract_config_from_workspace` (lines 125-166) on an
observed page state: parse `config_id` from the URL path, `csesidx` from
the query, the two session cookies from the cookie list; fail with
"配置数据不完整" unless all four are truthy. -/
def extract_config_from_workspace (p : PageState) : ExtractResult :=
  let config_id := findCid (pySplit p.url '/')
  let ses := cookieLookup p.cookies "__Secure-C_SES"
  let host := cookieLookup p.cookies "__Host-C_OSES"
  let csesidx := qsFirst (urlQuery p.url) "csesidx"
  let sesVal := ses.map (·.value)
  let hostVal := host.map (·.value)
  if truthyOptStr sesVal && truthyOptStr hostVal &&
     truthyOptStr csesidx && truthyOptStr config_id then
    { success := true
      config := some
        { csesidx := csesidx.getD ""
          config_id := config_id.getD ""
          secure_c_ses := sesVal.getD ""
          host_c_oses := hostVal.getD ""
          expires_at := cookieExpiresAt ses }
      error := none }
  else
    { success := false, config := none, error := some "配置数据不完整" }

/-- The crash sentinel test applied to a page source:
`'crashed' in page_source.lower() or 'aw, snap' in page_source.lower()`. -/
def crashSentinel (src : String) : Bool :=
  pyIn "crashed" (pyLower src) || pyIn "aw, snap" (pyLower src)

/-- Crash classification of an exception message in
`extract_config_with_retry`: `'crash' in msg or 'tab' in msg` on the
lowered message. -/
def isCrashMsg (msg : String) : Bool :=
  pyIn "crash" (pyLower msg) || pyIn "tab" (pyLower msg)

/-- One loop iteration of `extract_config_with_retry` as observed from the
driver.  `view src page`: reading `page_source` succeeds with content
`src`, and an extraction (if reached) sees `page`.  `exc msg`: reading
`page_source` raises `msg`.  `driver.refresh()` is modelled as
non-raising; its effect is already captured by the next iteration's
observation. -/
inductive DriverStep where
  | view (src : String) (page : PageState)
  | exc (msg : String)
deriving DecidableEq

/-- Loop of `extract_config_with_retry` (gemini_auth_utils.py lines
288-333), instrumented: returns the result dict together with the number
of `extract_config_from_workspace` invocations.  The accumulator is the
`last_error` variable. -/
def extract_retry_go : List DriverStep → Option String → ExtractResult × Nat
  | [], last =>
    ({ success := false, config := none
       error := some (pyOrStr last "提取配置失败（已重试）") }, 0)
  | DriverStep.view src page :: rest, last =>
    if crashSentinel src then extract_retry_go rest last
    else
      let r := extract_config_from_workspace page
      if r.success then (r, 1)
      else
        match extract_retry_go rest r.error with
        | (res, n) => (res, n + 1)
  | DriverStep.exc msg :: rest, last =>
    if isCrashMsg msg then extract_retry_go rest last
    else extract_retry_go rest (some msg)

/-- `GeminiAuthHelper.extract_config_with_retry`: the returned dict.  The
step list has one element per loop iteration, so `max_retries` is the
list's length. -/
def extract_config_with_retry (steps : List DriverStep) : ExtractResult :=
  (extract_retry_go steps none).1

/-- Number of extraction attempts (`extract_config_from_workspace` calls)
performed by `extract_config_with_retry`. -/
def extractAttempts (steps : List DriverStep) : Nat :=
  (extract_retry_go steps none).2

/-- The errors recorded into `last_error` in order, over a run of the
retry loop (extraction failures and non-crash exception messages);
recording stops at a successful extraction, which returns early. -/
def recordedErrors : List DriverStep → List String
  | [] => []
  | DriverStep.view src page :: rest =>
    if crashSentinel src then recordedErrors rest
    else
      let r := extract_config_from_workspace page
      if r.success then []
      else (r.error.getD "") :: recordedErrors rest
  | DriverStep.exc msg :: rest =>
    if isCrashMsg msg then recordedErrors rest
    else msg :: recordedErrors rest

/-- Crash classification of an exception message in `wait_for_workspace`:
`'crash' in msg or 'tab' in msg or 'target window' in msg` on the lowered
message. -/
def isWaitCrashMsg (msg : String) : Bool :=
  pyIn "crash" (pyLower msg) || pyIn "tab" (pyLower msg) ||
    pyIn "target window" (pyLower msg)

/-- Workspace URL test: `'business.gemini.google' in url and '/cid/' in url`. -/
def isWorkspaceUrl (url : String) : Bool :=
  pyIn "business.gemini.google" url && pyIn "/cid/" url

/-- One loop iteration of `wait_for_workspace` as observed from the
driver: reading `page_source` and `current_url` succeeds (`page src url`)
or raises (`exc msg`). -/
inductive WaitObs where
  | page (src : String) (url : String)
  | exc (msg : String)
deriving DecidableEq

/-- Whether an observation is detected as a crash by `wait_for_workspace`
(crash sentinel in the page source, or a crash-matching exception). -/
def isCrashObs : WaitObs → Bool
  | WaitObs.page src _ => crashSentinel src
  | WaitObs.exc msg => isWaitCrashMsg msg

/-- Loop of `GeminiAuthHelper.wait_for_workspace` (gemini_auth_utils.py
lines 179-223), instrumented.  `recov k` is the outcome of the `k`-th
`_recover_from_crash` call; `mcr` is `max_crash_retries`; `cc` is the
`crash_count` variable and `k` counts recoveries invoked so far.  Returns
the boolean result together with the total number of recovery
invocations.  Non-crash observations whose URL does not match the
workspace pattern, and non-crash exceptions, just continue waiting. -/
def wait_go (recov : Nat → Bool) (mcr : Nat) : List WaitObs → Nat → Nat → Bool × Nat
  | [], _, k => (false, k)
  | o :: rest, cc, k =>
    if isCrashObs o then
      if mcr ≤ cc + 1 then (false, k)
      else if recov k then wait_go recov mcr rest (cc + 1) (k + 1)
      else (false, k + 1)
    else
      match o with
      | WaitObs.page _ url =>
        if isWorkspaceUrl url then (true, k)
        else wait_go recov mcr rest cc k
      | WaitObs.exc _ => wait_go recov mcr rest cc k

/-- `wait_for_workspace` with instrumentation: the observation list has
one element per loop iteration, so `timeout` is the list's length. -/
def wait_for_workspace (obs : List WaitObs) (recov : Nat → Bool) (mcr : Nat) :
    Bool × Nat :=
  wait_go recov mcr obs 0 0

/-- A browser tab: window handle and the URL it shows. -/
structure Tab where
  handle : String
  url : String
deriving DecidableEq

/-- Browser session state: open tabs (in handle-creation order) and the
focused window handle (`none` right after closing the focused window). -/
structure Browser where
  tabs : List Tab
  focused : Option String
deriving DecidableEq

/-- Fault model for one `_recover_from_crash` run.  `newHandle` is the
handle of the tab `window.open('')` creates (`none` covers both the
script raising and no new window appearing — both return false with the
window set unchanged).  `switchFails h` / `closeFails h`: switching to /
closing handle `h` raises.  `navFails`: the final `driver.get(target)`
raises.  Both switches to the new handle share its `switchFails` flag. -/
structure RecoverEnv where
  newHandle : Option String
  switchFails : String → Bool
  closeFails : String → Bool
  navFails : Bool

/-- The best-effort close loop over the previously known handles
(gemini_auth_utils.py lines 255-260): per handle, a raising switch or a
raising close is swallowed and leaves the tab open. -/
def closeOldTabs (env : RecoverEnv) : List String → Browser → Browser
  | [], b => b
  | h :: rest, b =>
    if env.switchFails h then closeOldTabs env rest b
    else if env.closeFails h then
      closeOldTabs env rest { b with focused := some h }
    else
      closeOldTabs env rest
        { tabs := b.tabs.filter (fun t => !(t.handle == h)), focused := none }

/-- `GeminiAuthHelper._recover_from_crash` (lines 225-274): open a new
tab, identify its handle by set difference, switch to it, best-effort
close every previously known tab, switch back, navigate to `target`.
Returns the boolean result and the final browser state. -/
def recover_from_crash (b : Browser) (env : RecoverEnv) (target : String) :
    Bool × Browser :=
  match env.newHandle with
  | none => (false, b)
  | some h =>
    let b1 : Browser := { b with tabs := b.tabs ++ [{ handle := h, url := "" }] }
    if env.switchFails h then (false, b1)
    else
      let b2 := closeOldTabs env (b.tabs.map (·.handle)) { b1 with focused := some h }
      let b3 : Browser := { b2 with focused := some h }
      if env.navFails then (false, b3)
      else
        (true, { b3 with
          tabs := b3.tabs.map (fun t =>
            if t.handle == h then { t with url := target } else t) })

/-!
Register service (src/core/register_service.py).
-/

/-- `RegisterStatus` enum. -/
inductive RegisterStatus where
  | pending
  | running
  | success
  | failed
deriving DecidableEq

/-- Per-attempt result dict of `_register_one_sync`:
`{"email": str|None, "success": bool, "config": dict|None, "error": str|None}`.
The saved account record is introduced below as `Account`. -/
structure AttemptResult where
  email : Option String
  success : Bool
  config : Option ConfigData
  error : Option String
deriving DecidableEq

/-- `RegisterTask` dataclass.  Timestamps are abstract naturals supplied
by the caller where the code calls `time.time()`. -/
structure RegisterTask where
  id : String
  count : Nat
  status : RegisterStatus
  progress : Nat
  success_count : Nat
  fail_count : Nat
  created_at : Nat
  finished_at : Option Nat
  results : List AttemptResult
  error : Option String
deriving DecidableEq

/-- A fresh task as `start_register` builds it (dataclass defaults). -/
def mkTask (tid : String) (count : Nat) (now : Nat) : RegisterTask :=
  { id := tid, count := count, status := RegisterStatus.pending, progress := 0
    success_count := 0, fail_count := 0, created_at := now, finished_at := none
    results := [], error := none }

/-- The service state touched by `start_register`: the `_tasks` dict
(insertion-ordered, as an association list), the `_current_task_id` slot
and the `_specified_domain` field.  Task ids are uuid4 strings, so the
Python truthiness of `_current_task_id` coincides with it being set. -/
structure ServiceState where
  tasks : List (String × RegisterTask)
  currentTaskId : Option String
  specifiedDomain : Option String
deriving DecidableEq

/-- `self._tasks.get(tid)`. -/
def lookupTask (tasks : List (String × RegisterTask)) (tid : String) :
    Option RegisterTask :=
  (tasks.find? (fun p => p.1 == tid)).map (·.2)

/-- `RegisterService.start_register` (register_service.py lines 261-287):
raise while the current task is running, otherwise record the domain,
create and register a fresh task and occupy the current-task slot.  The
scheduling of `_run_register_async` happens after the returned state.
`newId` is the generated uuid, `now` the creation time. -/
def start_register (s : ServiceState) (count : Nat) (domain : Option String)
    (newId : String) (now : Nat) : ServiceState × Except String RegisterTask :=
  let guard : Bool :=
    match s.currentTaskId with
    | some tid =>
      match lookupTask s.tasks tid with
      | some t => t.status == RegisterStatus.running
      | none => false
    | none => false
  if guard then (s, Except.error "已有注册任务在运行中")
  else
    let task := mkTask newId count now
    ({ tasks := s.tasks ++ [(newId, task)], currentTaskId := some newId
       specifiedDomain := domain }, Except.ok task)

/-- Persisted account record, one element of the `accounts.json` array. -/
structure Account where
  id : String
  csesidx : String
  config_id : String
  secure_c_ses : String
  host_c_oses : String
  expires_at : Option Int
deriving DecidableEq

/-- The record `_save_config` builds from the email and the extracted data. -/
def mkAccount (email : String) (d : ConfigData) : Account :=
  { id := email, csesidx := d.csesidx, config_id := d.config_id
    secure_c_ses := d.secure_c_ses, host_c_oses := d.host_c_oses
    expires_at := d.expires_at }

/-- Content of the persisted store before a save: the file is absent, it
holds text that `json.load` rejects, it holds a JSON array of records, or
it holds valid JSON that is not an array. -/
inductive StoreContent where
  | absent
  | invalidJson
  | array (l : List Account)
  | nonArrayJson
deriving DecidableEq

/-- `RegisterService._save_config` (register_service.py lines 118-149):
read the existing file (an unreadable or unparsable file degrades to the
empty list), append the new record, rewrite the file.  On a valid
non-array JSON value, `accounts.append` raises before the file is opened
for writing: the result is `none` and the store is unchanged. -/
def save_config (store : StoreContent) (email : String) (d : ConfigData) :
    Option (StoreContent × Account) :=
  let config := mkAccount email d
  match store with
  | StoreContent.absent => some (StoreContent.array [config], config)
  | StoreContent.invalidJson => some (StoreContent.array [config], config)
  | StoreContent.array l => some (StoreContent.array (l ++ [config]), config)
  | StoreContent.nonArrayJson => none

/-- Outcome of a step of the registration attempt that may raise. -/
inductive Step (α : Type) where
  | ok (a : α)
  | raise (msg : String)
deriving DecidableEq

/-- Result dict of `perform_email_verification`:
`{"success": bool, "error": str|None}` (it catches every exception
internally and never raises). -/
structure VerifyResult where
  success : Bool
  error : Option String
deriving DecidableEq

/-- Environment of one `_register_one_sync` run.  Steps whose Python
implementation catches every exception internally and returns a value
(`perform_email_verification`, `wait_for_workspace`,
`extract_config_with_retry`) appear as plain values; steps that can raise
into the attempt's try block appear as `Step`.  `importError` is a failed
selenium import, `email` the `_get_email()` result (falsy on failure),
`save` the `_save_config` outcome. -/
structure AttemptEnv where
  importError : Option String
  email : Option String
  driverCreate : Step Unit
  navigate : Step Unit
  verify : VerifyResult
  nameField : Step Bool
  workspace : Bool
  extract : ExtractResult
  save : Step Account

/-- Partial result record with the saved config of a fully successful
attempt. -/
structure AttemptRecord where
  email : Option String
  success : Bool
  config : Option Account
  error : Option String
deriving DecidableEq

/-- The body of the try block of `_register_one_sync` (register_service.py
lines 192-249), with early returns as `ok` and uncaught exceptions as
`error`. -/
def registerTryBody (env : AttemptEnv) (email : String) :
    Except String AttemptRecord :=
  match env.navigate with
  | Step.raise e => Except.error e
  | Step.ok _ =>
    if !env.verify.success then
      Except.ok { email := some email, success := false, config := none
                  error := env.verify.error }
    else
      match env.nameField with
      | Step.raise e => Except.error e
      | Step.ok false =>
        Except.ok { email := some email, success := false, config := none
                    error := some "未找到姓名输入框" }
      | Step.ok true =>
        if !env.workspace then
          Except.ok { email := some email, success := false, config := none
                      error := some "未跳转到工作台" }
        else if !env.extract.success then
          Except.ok { email := some email, success := false, config := none
                      error := env.extract.error }
        else
          match env.save with
          | Step.raise e => Except.error e
          | Step.ok config =>
            Except.ok { email := some email, success := true
                        config := some config, error := none }

/-- Outcome of `_register_one_sync`: the returned record, whether a
browser session was created, and whether `driver.quit()` was invoked. -/
structure AttemptOutcome where
  result : AttemptRecord
  driverCreated : Bool
  quitCalled : Bool
deriving DecidableEq

/-- `RegisterService._register_one_sync` (register_service.py lines
151-259): import check, email creation, then a try/except/finally around
the browser work.  The except clause converts any raise into a failed
record with the exception's message; the finally clause invokes
`driver.quit()` exactly when the driver was created. -/
def register_one_sync (env : AttemptEnv) : AttemptOutcome :=
  match env.importError with
  | some e =>
    { result := { email := none, success := false, config := none
                  error := some ("Selenium 未安装: " ++ e) }
      driverCreated := false, quitCalled := false }
  | none =>
    match env.email with
    | none =>
      { result := { email := none, success := false, config := none
                    error := some "无法创建邮箱" }
        driverCreated := false, quitCalled := false }
    | some email =>
      if email == "" then
        { result := { email := none, success := false, config := none
                      error := some "无法创建邮箱" }
          driverCreated := false, quitCalled := false }
      else
        match env.driverCreate with
        | Step.raise e =>
          { result := { email := some email, success := false, config := none
                        error := some e }
            driverCreated := false, quitCalled := false }
        | Step.ok _ =>
          match registerTryBody env email with
          | Except.ok r => { result := r, driverCreated := true, quitCalled := true }
          | Except.error e =>
            { result := { email := some email, success := false, config := none
                          error := some e }
              driverCreated := true, quitCalled := true }

/-- `task.progress = i + 1` before attempt `i` runs. -/
def setProgress (t : RegisterTask) (i : Nat) : RegisterTask :=
  { t with progress := i + 1 }

/-- Appending attempt result `r` and bumping the matching counter
(register_service.py lines 298-303). -/
def applyResult (t : RegisterTask) (r : AttemptResult) : RegisterTask :=
  if r.success then
    { t with results := t.results ++ [r], success_count := t.success_count + 1 }
  else
    { t with results := t.results ++ [r], fail_count := t.fail_count + 1 }

/-- The `for i in range(task.count)` loop of `_run_register_async`:
`outcome i` is the result dict produced by attempt `i`; `n` counts the
remaining iterations starting at index `i`. -/
def batchLoop (outcome : Nat → AttemptResult) : Nat → Nat → RegisterTask → RegisterTask
  | _, 0, t => t
  | i, n + 1, t =>
    batchLoop outcome (i + 1) n (applyResult (setProgress t i) (outcome i))

/-- `RegisterService._run_register_async` (register_service.py lines
289-315) without a batch-level exception: mark running, run the loop, set
the terminal status (`success` iff at least one attempt succeeded) and
stamp `finished_at`.  The clearing of the current-task slot lives in the
service state, not the task. -/
def run_register_async (t : RegisterTask) (outcome : Nat → AttemptResult)
    (finish : Nat) : RegisterTask :=
  let t0 := { t with status := RegisterStatus.running }
  let t1 := batchLoop outcome 0 t.count t0
  let t2 := { t1 with
    status := if 0 < t1.success_count then RegisterStatus.success
              else RegisterStatus.failed }
  { t2 with finished_at := some finish }

/-- Every intermediate task state of the batch loop, in execution order:
the state entering iteration `i`, the state with `progress = i + 1` while
attempt `i` executes, then (as head of the recursive call) the state after
its result is applied. -/
def batchTrace (outcome : Nat → AttemptResult) : Nat → Nat → RegisterTask → List RegisterTask
  | _, 0, t => [t]
  | i, n + 1, t =>
    t :: setProgress t i ::
      batchTrace outcome (i + 1) n (applyResult (setProgress t i) (outcome i))

/-- Every observable task state of `_run_register_async` on a run without
a batch-level exception: the loop trace from the just-started task,
followed by the terminal-status state and the finished-stamped state. -/
def runTrace (t : RegisterTask) (outcome : Nat → AttemptResult)
    (finish : Nat) : List RegisterTask :=
  let t0 := { t with status := RegisterStatus.running }
  let t1 := batchLoop outcome 0 t.count t0
  let t2 := { t1 with
    status := if 0 < t1.success_count then RegisterStatus.success
              else RegisterStatus.failed }
  batchTrace outcome 0 t.count t0 ++ [t2, { t2 with finished_at := some finish }]

/-- Concrete account fixture used by witnesses. -/
def acctOld : Account :=
  { id := "old@x", csesidx := "c", config_id := "g", secure_c_ses := "s"
    host_c_oses := "h", expires_at := none }

/-- Concrete extracted-config fixture used by witnesses. -/
def cfgNew : ConfigData :=
  { csesidx := "c2", config_id := "g2", secure_c_ses := "s2"
    host_c_oses := "h2", expires_at := some 7 }

/-- Concrete attempt environment whose navigation step raises, used by
witnesses. -/
def envNavRaise : AttemptEnv :=
  { importError := none, email := some "e@x", driverCreate := Step.ok ()
    navigate := Step.raise "chrome gone"
    verify := { success := true, error := none }
    nameField := Step.ok true, workspace := true
    extract := { success := false, config := none, error := some "x" }
    save := Step.raise "y" }

/-- Concrete one-tab browser state used by witnesses. -/
def browserOneTab : Browser :=
  { tabs := [{ handle := "t1", url := "a" }], focused := some "t1" }

/-- Concrete fault-free recovery environment used by witnesses. -/
def envCleanRecover : RecoverEnv :=
  { newHandle := some "t2", switchFails := fun _ => false
    closeFails := fun _ => false, navFails := false }

/-- Concrete always-successful attempt outcome used by witnesses. -/
def okOutcome : Nat → AttemptResult :=
  fun _ => { email := some "a@b", success := true, config := none, error := none }

/-!
Theorems.
-/

/-- C1: while the current task is running, `start_register` raises and
leaves the task registry, the current-task slot (and the whole service
state) unchanged; no new task is created. -/
theorem c1_single_batch_guard (s : ServiceState) (tid : String) (t : RegisterTask)
    (count : Nat) (domain : Option String) (newId : String) (now : Nat)
    (hcur : s.currentTaskId = some tid)
    (htask : lookupTask s.tasks tid = some t)
    (hrun : t.status = RegisterStatus.running) :
    start_register s count domain newId now = (s, Except.error "已有注册任务在运行中") := by
  simp only [start_register, hcur, htask, hrun]
  simp

/-- Witness for C1: a concrete service state whose current task is
running rejects a second batch and is left unchanged. -/
theorem c1_single_batch_guard_witness :
    start_register
      { tasks := [("a", { mkTask "a" 1 0 with status := RegisterStatus.running })]
        currentTaskId := some "a", specifiedDomain := none } 2 none "b" 5
      = ({ tasks := [("a", { mkTask "a" 1 0 with status := RegisterStatus.running })]
           currentTaskId := some "a", specifiedDomain := none },
         Except.error "已有注册任务在运行中") :=
  c1_single_batch_guard _ "a" { mkTask "a" 1 0 with status := RegisterStatus.running }
    2 none "b" 5 rfl (by decide) rfl

/-- C7: saving a credential over a persisted JSON array appends exactly
one element at the end and leaves every previously persisted entry
unchanged. -/
theorem c7_save_appends (store : StoreContent) (l : List Account) (email : String)
    (d : ConfigData) (hs : store = StoreContent.array l) :
    save_config store email d
      = some (StoreContent.array (l ++ [mkAccount email d]), mkAccount email d)
    ∧ (l ++ [mkAccount email d]).length = l.length + 1
    ∧ ∀ i, i < l.length → (l ++ [mkAccount email d])[i]? = l[i]? := by
  subst hs
  refine ⟨rfl, by simp, ?_⟩
  intro i hi
  rw [List.getElem?_append, if_pos hi]

/-- Witness for C7: saving over a one-element store yields a two-element
store whose first entry is untouched. -/
theorem c7_save_appends_witness :
    save_config (StoreContent.array [acctOld]) "new@x" cfgNew
      = some (StoreContent.array ([acctOld] ++ [mkAccount "new@x" cfgNew]),
              mkAccount "new@x" cfgNew)
    ∧ ([acctOld] ++ [mkAccount "new@x" cfgNew]).length = [acctOld].length + 1
    ∧ ∀ i, i < [acctOld].length →
        ([acctOld] ++ [mkAccount "new@x" cfgNew])[i]? = [acctOld][i]? :=
  c7_save_appends _ [acctOld] "new@x" cfgNew rfl

/-- C10: `ChatGPTMailProvider.create_email` ignores its domain argument:
with the same provider state and remote response, any two domain
arguments produce the identical request and the identical returned
address. -/
theorem c10_domain_ignored (apiUrl apiKey : String) (d1 d2 : Option String)
    (resp : Option GptCreateResp) :
    chatgpt_create_email apiUrl apiKey d1 resp
      = chatgpt_create_email apiUrl apiKey d2 resp := rfl

/-- C8: with selenium importable and an email obtained, any exception
raised inside the attempt's try block is converted into a structured
failed record carrying the exception's message (never propagated), and
`driver.quit()` is invoked on every exit path on which the browser
session was created (and only on those). -/
theorem c8_attempt_error_handling (env : AttemptEnv) (email e : String)
    (h1 : env.importError = none) (h2 : env.email = some email) (h3 : email ≠ "") :
    ((register_one_sync env).driverCreated = true →
        (register_one_sync env).quitCalled = true)
    ∧ (env.driverCreate = Step.ok () → (register_one_sync env).driverCreated = true)
    ∧ (registerTryBody env email = Except.error e →
        env.driverCreate = Step.ok () →
        (register_one_sync env).result.success = false
        ∧ (register_one_sync env).result.error = some e)
    ∧ (∀ msg, env.driverCreate = Step.raise msg →
        (register_one_sync env).result.success = false
        ∧ (register_one_sync env).result.error = some msg
        ∧ (register_one_sync env).quitCalled = false) := by
  have he : (email == "") = false := by simp [h3]
  obtain ⟨ie, em, dc, nav, ver, nf, ws, ex, sv⟩ := env
  dsimp only at h1 h2
  subst h1
  subst h2
  cases dc with
  | ok u =>
    cases u
    cases hb : registerTryBody ⟨none, some email, Step.ok (), nav, ver, nf, ws, ex, sv⟩ email with
    | ok r => simp [register_one_sync, he, hb]
    | error msg =>
      refine ⟨?_, ?_, ?_, ?_⟩
      · intro _
        simp [register_one_sync, he, hb]
      · intro _
        simp [register_one_sync, he, hb]
      · intro hmsg _
        injection hmsg with hme
        subst hme
        simp [register_one_sync, he, hb]
      · intro m hm
        cases hm
  | raise msg =>
    refine ⟨?_, ?_, ?_, ?_⟩
    · intro h
      simp [register_one_sync, he] at h
    · intro h
      cases h
    · intro _ h
      cases h
    · intro m hm
      cases hm
      simp [register_one_sync, he]

/-- Witness for C8: a concrete attempt whose navigation step raises
returns a failed record with that message and still tears the driver
down. -/
theorem c8_attempt_error_handling_witness :
    ((register_one_sync envNavRaise).driverCreated = true →
        (register_one_sync envNavRaise).quitCalled = true)
    ∧ (envNavRaise.driverCreate = Step.ok () →
        (register_one_sync envNavRaise).driverCreated = true)
    ∧ (registerTryBody envNavRaise "e@x" = Except.error "chrome gone" →
        envNavRaise.driverCreate = Step.ok () →
        (register_one_sync envNavRaise).result.success = false
        ∧ (register_one_sync envNavRaise).result.error = some "chrome gone")
    ∧ (∀ msg, envNavRaise.driverCreate = Step.raise msg →
        (register_one_sync envNavRaise).result.success = false
        ∧ (register_one_sync envNavRaise).result.error = some msg
        ∧ (register_one_sync envNavRaise).quitCalled = false) :=
  c8_attempt_error_handling envNavRaise "e@x" "chrome gone" rfl rfl (by decide)

/-- Fields of `applyResult`: the results list grows by one and exactly
one of the two counters grows by one. -/
theorem applyResult_fields (t : RegisterTask) (r : AttemptResult) :
    (applyResult t r).results = t.results ++ [r]
    ∧ (applyResult t r).success_count + (applyResult t r).fail_count
        = t.success_count + t.fail_count + 1
    ∧ (applyResult t r).count = t.count
    ∧ (applyResult t r).progress = t.progress := by
  unfold applyResult
  cases hr : r.success <;> simp <;> omega

/-- Counter/trace bookkeeping of the batch loop: lengths and counter sums
advance by the iteration count, `count` is untouched, `progress` ends at
`i + n`, and the counters stay equal to the number of succeeded/failed
recorded results. -/
theorem batchLoop_fields (outcome : Nat → AttemptResult) :
    ∀ (n i : Nat) (t : RegisterTask), t.progress = i →
      (batchLoop outcome i n t).progress = i + n
      ∧ (batchLoop outcome i n t).results.length = t.results.length + n
      ∧ (batchLoop outcome i n t).count = t.count
      ∧ (batchLoop outcome i n t).success_count + (batchLoop outcome i n t).fail_count
          = t.success_count + t.fail_count + n
      ∧ (t.success_count = (t.results.filter (fun r => r.success)).length →
          (batchLoop outcome i n t).success_count
            = ((batchLoop outcome i n t).results.filter (fun r => r.success)).length)
      ∧ (t.fail_count = (t.results.filter (fun r => !r.success)).length →
          (batchLoop outcome i n t).fail_count
            = ((batchLoop outcome i n t).results.filter (fun r => !r.success)).length) := by
  intro n
  induction n with
  | zero =>
    intro i t hp
    simp [batchLoop, hp]
  | succ n ih =>
    intro i t hp
    have hstep := ih (i + 1) (applyResult (setProgress t i) (outcome i)) (by
      rcases applyResult_fields (setProgress t i) (outcome i) with ⟨_, _, _, hpr⟩
      rw [hpr]
      simp [setProgress])
    simp only [batchLoop]
    rcases hstep with ⟨s1, s2, s3, s4, s5, s6⟩
    refine ⟨by rw [s1]; omega, ?_, ?_, ?_, ?_, ?_⟩
    · rw [s2]
      unfold applyResult setProgress
      cases (outcome i).success <;> simp <;> omega
    · rw [s3]
      unfold applyResult setProgress
      cases (outcome i).success <;> simp
    · rw [s4]
      unfold applyResult setProgress
      cases hr : (outcome i).success <;> simp [hr] <;> omega
    · intro hinv
      apply s5
      unfold applyResult setProgress
      cases hr : (outcome i).success <;> simp [hr, List.filter_append, hinv]
    · intro hinv
      apply s6
      unfold applyResult setProgress
      cases hr : (outcome i).success <;> simp [hr, List.filter_append, hinv]

/-- C2: a batch of `count ≥ 1` attempts that terminates without a
batch-level exception records exactly `count` per-attempt results, its
counters sum to `count`, and each counter equals the number of recorded
results with the corresponding success flag. -/
theorem c2_batch_counts (count : Nat) (tid : String) (outcome : Nat → AttemptResult)
    (created finish : Nat) (hn : 1 ≤ count) :
    (run_register_async (mkTask tid count created) outcome finish).results.length = count
    ∧ (run_register_async (mkTask tid count created) outcome finish).success_count
        + (run_register_async (mkTask tid count created) outcome finish).fail_count = count
    ∧ (run_register_async (mkTask tid count created) outcome finish).success_count
        = ((run_register_async (mkTask tid count created) outcome finish).results.filter
            (fun r => r.success)).length
    ∧ (run_register_async (mkTask tid count created) outcome finish).fail_count
        = ((run_register_async (mkTask tid count created) outcome finish).results.filter
            (fun r => !r.success)).length := by
  have h := batchLoop_fields outcome count 0
    { mkTask tid count created with status := RegisterStatus.running } (by simp [mkTask])
  rcases h with ⟨h1, h2, h3, h4, h5, h6⟩
  simp only [mkTask] at h2 h4 h5 h6
  unfold run_register_async
  refine ⟨?_, ?_, ?_, ?_⟩
  · simpa [mkTask] using h2
  · simpa [mkTask] using h4
  · simpa [mkTask] using h5 (by simp)
  · simpa [mkTask] using h6 (by simp)

/-- Witness for C2: a two-attempt batch with one success and one failure
records two results and counters `1 + 1`. -/
theorem c2_batch_counts_witness :
    (run_register_async (mkTask "t" 2 0)
        (fun i => { email := some "a@b", success := i == 0, config := none
                    error := none }) 9).results.length = 2
    ∧ (run_register_async (mkTask "t" 2 0)
        (fun i => { email := some "a@b", success := i == 0, config := none
                    error := none }) 9).success_count
        + (run_register_async (mkTask "t" 2 0)
            (fun i => { email := some "a@b", success := i == 0, config := none
                        error := none }) 9).fail_count = 2
    ∧ (run_register_async (mkTask "t" 2 0)
        (fun i => { email := some "a@b", success := i == 0, config := none
                    error := none }) 9).success_count
        = ((run_register_async (mkTask "t" 2 0)
            (fun i => { email := some "a@b", success := i == 0, config := none
                        error := none }) 9).results.filter (fun r => r.success)).length
    ∧ (run_register_async (mkTask "t" 2 0)
        (fun i => { email := some "a@b", success := i == 0, config := none
                    error := none }) 9).fail_count
        = ((run_register_async (mkTask "t" 2 0)
            (fun i => { email := some "a@b", success := i == 0, config := none
                        error := none }) 9).results.filter (fun r => !r.success)).length :=
  c2_batch_counts 2 "t" _ 0 9 (by decide)

/-- Every state in the loop trace keeps the counters equal to the number
of recorded results, keeps the recorded-results count no greater than
`progress` (by at most one), and keeps `progress` within `count`. -/
theorem batchTrace_invariant (outcome : Nat → AttemptResult) (count : Nat) :
    ∀ (n i : Nat) (t : RegisterTask), t.progress = i → t.results.length = i →
      t.success_count + t.fail_count = i → i + n ≤ count →
      ∀ s ∈ batchTrace outcome i n t,
        s.success_count + s.fail_count = s.results.length
        ∧ s.results.length ≤ s.progress
        ∧ s.progress ≤ s.results.length + 1
        ∧ s.progress ≤ count := by
  intro n
  induction n with
  | zero =>
    intro i t hp hl hc hle s hs
    simp only [batchTrace, List.mem_singleton] at hs
    subst hs
    omega
  | succ n ih =>
    intro i t hp hl hc hle s hs
    simp only [batchTrace, List.mem_cons] at hs
    rcases hs with hs | hs | hs
    · subst hs
      omega
    · subst hs
      simp only [setProgress]
      omega
    · rcases applyResult_fields (setProgress t i) (outcome i) with ⟨ha1, ha2, _, ha4⟩
      refine ih (i + 1) (applyResult (setProgress t i) (outcome i)) ?_ ?_ ?_ (by omega) s hs
      · rw [ha4]
        simp [setProgress]
      · rw [ha1]
        simp [setProgress, hl]
      · rw [ha2]
        simp [setProgress]
        omega

/-- For every attempt index `j` covered by the loop, the trace contains
the snapshot taken while attempt `j` executes: `progress` already equals
`j + 1` while only `j` results are recorded. -/
theorem batchTrace_started (outcome : Nat → AttemptResult) :
    ∀ (n i : Nat) (t : RegisterTask), t.results.length = i →
      ∀ j, i ≤ j → j < i + n →
        ∃ s ∈ batchTrace outcome i n t, s.progress = j + 1 ∧ s.results.length = j := by
  intro n
  induction n with
  | zero =>
    intro i t _ j hij hjn
    omega
  | succ n ih =>
    intro i t hl j hij hjn
    by_cases hji : j = i
    · subst hji
      refine ⟨setProgress t j, ?_, ?_, ?_⟩
      · simp [batchTrace]
      · simp [setProgress]
      · simp [setProgress, hl]
    · rcases applyResult_fields (setProgress t i) (outcome i) with ⟨ha1, _, _, _⟩
      have hlen : (applyResult (setProgress t i) (outcome i)).results.length = i + 1 := by
        rw [ha1]
        simp [setProgress, hl]
      rcases ih (i + 1) (applyResult (setProgress t i) (outcome i)) hlen j (by omega) (by omega)
        with ⟨s, hmem, hprog, hres⟩
      exact ⟨s, by simp [batchTrace, List.mem_cons]; right; right; exact hmem, hprog, hres⟩

/-- C9: every observable task state of a batch run satisfies
`success_count + fail_count = |results| ≤ progress ≤ |results| + 1` and
`progress ≤ count`, and for every attempt index `j < count` the trace
contains a snapshot with `progress = j + 1` while only `j` results are
recorded (progress counts started, not completed, attempts). -/
theorem c9_progress_counts_started (tid : String) (count created finish : Nat)
    (outcome : Nat → AttemptResult) :
    (∀ s ∈ runTrace (mkTask tid count created) outcome finish,
        s.success_count + s.fail_count = s.results.length
        ∧ s.results.length ≤ s.progress
        ∧ s.progress ≤ s.results.length + 1
        ∧ s.progress ≤ count)
    ∧ (∀ j, j < count →
        ∃ s ∈ runTrace (mkTask tid count created) outcome finish,
          s.progress = j + 1 ∧ s.results.length = j) := by
  have hfields := batchLoop_fields outcome count 0
    { mkTask tid count created with status := RegisterStatus.running } (by simp [mkTask])
  rcases hfields with ⟨hf1, hf2, _, hf4, _, _⟩
  simp [mkTask] at hf1 hf2 hf4
  constructor
  · intro s hs
    simp only [runTrace, List.mem_append, List.mem_cons, List.mem_singleton] at hs
    rcases hs with hs | hs | hs
    · exact batchTrace_invariant outcome count count 0
        { mkTask tid count created with status := RegisterStatus.running }
        (by simp [mkTask]) (by simp [mkTask]) (by simp [mkTask]) (by omega) s hs
    · subst hs
      refine ⟨?_, ?_, ?_, ?_⟩ <;> simp [mkTask] <;> omega
    · rcases hs with hs | hs
      · subst hs
        refine ⟨?_, ?_, ?_, ?_⟩ <;> simp [mkTask] <;> omega
      · cases hs
  · intro j hj
    rcases batchTrace_started outcome count 0
        { mkTask tid count created with status := RegisterStatus.running }
        (by simp [mkTask]) j (by omega) (by omega) with ⟨s, hmem, hprog, hres⟩
    exact ⟨s, by simp only [runTrace, List.mem_append]; left; exact hmem, hprog, hres⟩

/-- Witness for C9: concrete one-attempt batch; the initial running state
satisfies the invariant and the trace holds the snapshot of attempt 0. -/
theorem c9_progress_counts_started_witness :
    (({ mkTask "t" 1 0 with status := RegisterStatus.running } : RegisterTask).success_count
        + ({ mkTask "t" 1 0 with status := RegisterStatus.running } : RegisterTask).fail_count
        = ({ mkTask "t" 1 0 with status := RegisterStatus.running } : RegisterTask).results.length
      ∧ ({ mkTask "t" 1 0 with status := RegisterStatus.running } : RegisterTask).results.length
        ≤ ({ mkTask "t" 1 0 with status := RegisterStatus.running } : RegisterTask).progress
      ∧ ({ mkTask "t" 1 0 with status := RegisterStatus.running } : RegisterTask).progress
        ≤ ({ mkTask "t" 1 0 with status := RegisterStatus.running } : RegisterTask).results.length + 1
      ∧ ({ mkTask "t" 1 0 with status := RegisterStatus.running } : RegisterTask).progress ≤ 1)
    ∧ (∃ s ∈ runTrace (mkTask "t" 1 0) okOutcome 9,
        s.progress = 0 + 1 ∧ s.results.length = 0) :=
  ⟨(c9_progress_counts_started "t" 1 0 9 okOutcome).1
      { mkTask "t" 1 0 with status := RegisterStatus.running } (by decide),
   (c9_progress_counts_started "t" 1 0 9 okOutcome).2 0 (by decide)⟩

/-- A truthy optional string is a nonempty string once defaulted. -/
theorem truthy_getD (o : Option String) (h : truthyOptStr o = true) : o.getD "" ≠ "" := by
  cases o with
  | none => simp [truthyOptStr] at h
  | some s =>
    simp only [truthyOptStr, Bool.not_eq_true'] at h
    simpa using h

/-- A failed extraction always reports the incomplete-data error. -/
theorem extract_fail_error (p : PageState)
    (h : (extract_config_from_workspace p).success = false) :
    (extract_config_from_workspace p).error = some "配置数据不完整" := by
  simp only [extract_config_from_workspace] at h ⊢
  split at h
  case isTrue => simp at h
  case isFalse hc => rw [if_neg hc]

/-- A successful extraction carries a config whose four required fields
are all nonempty. -/
theorem extract_success_fields (p : PageState)
    (h : (extract_config_from_workspace p).success = true) :
    ∃ cfg, (extract_config_from_workspace p).config = some cfg
      ∧ cfg.csesidx ≠ "" ∧ cfg.config_id ≠ "" ∧ cfg.secure_c_ses ≠ ""
      ∧ cfg.host_c_oses ≠ "" := by
  simp only [extract_config_from_workspace] at h ⊢
  split at h
  case isTrue hc =>
    rw [if_pos hc]
    simp only [Bool.and_eq_true] at hc
    rcases hc with ⟨⟨⟨hses, hhost⟩, hcx⟩, hcid⟩
    exact ⟨_, rfl, truthy_getD _ hcx, truthy_getD _ hcid, truthy_getD _ hses,
      truthy_getD _ hhost⟩
  case isFalse => simp at h

/-- The retry loop performs at most one extraction per loop iteration. -/
theorem extract_retry_attempts_le :
    ∀ (steps : List DriverStep) (last : Option String),
      (extract_retry_go steps last).2 ≤ steps.length := by
  intro steps
  induction steps with
  | nil => intro last; simp [extract_retry_go]
  | cons step rest ih =>
    intro last
    cases step with
    | view src page =>
      simp only [extract_retry_go]
      by_cases hc : crashSentinel src
      · simp only [hc, if_true]
        exact le_trans (ih last) (by simp)
      · simp only [hc, if_false]
        by_cases hs : (extract_config_from_workspace page).success
        · simp [hs]
        · simp only [hs, if_false]
          cases hgo : extract_retry_go rest (extract_config_from_workspace page).error with
          | mk res n =>
            have := ih (extract_config_from_workspace page).error
            rw [hgo] at this
            simpa using Nat.succ_le_succ this
    | exc msg =>
      simp only [extract_retry_go]
      by_cases hc : isCrashMsg msg
      · simp only [hc, if_true]
        exact le_trans (ih last) (by simp)
      · simp only [hc, if_false]
        exact le_trans (ih (some msg)) (by simp)

/-- A successful retry result is the extraction result of one of the
observed non-crashed pages. -/
theorem extract_retry_success_origin :
    ∀ (steps : List DriverStep) (last : Option String),
      (extract_retry_go steps last).1.success = true →
      ∃ src page, DriverStep.view src page ∈ steps ∧ crashSentinel src = false
        ∧ extract_config_from_workspace page = (extract_retry_go steps last).1 := by
  intro steps
  induction steps with
  | nil => intro last h; simp [extract_retry_go] at h
  | cons step rest ih =>
    intro last h
    cases step with
    | view src page =>
      simp only [extract_retry_go] at h ⊢
      by_cases hc : crashSentinel src
      · simp only [hc, if_true] at h ⊢
        rcases ih last h with ⟨s2, p2, hmem, hcs, heq⟩
        exact ⟨s2, p2, List.mem_cons_of_mem _ hmem, hcs, heq⟩
      · simp only [hc, if_false] at h ⊢
        by_cases hs : (extract_config_from_workspace page).success
        · refine ⟨src, page, List.mem_cons_self _ _, by simpa using hc, ?_⟩
          simp [hs]
        · simp only [hs, if_false] at h ⊢
          cases hgo : extract_retry_go rest (extract_config_from_workspace page).error with
          | mk res n =>
            rw [hgo] at h
            simp only at h
            have := ih (extract_config_from_workspace page).error
            rw [hgo] at this
            rcases this h with ⟨s2, p2, hmem, hcs, heq⟩
            exact ⟨s2, p2, List.mem_cons_of_mem _ hmem, hcs, by simpa [hgo] using heq⟩
    | exc msg =>
      simp only [extract_retry_go] at h ⊢
      by_cases hc : isCrashMsg msg
      · simp only [hc, if_true] at h ⊢
        rcases ih last h with ⟨s2, p2, hmem, hcs, heq⟩
        exact ⟨s2, p2, List.mem_cons_of_mem _ hmem, hcs, heq⟩
      · simp only [hc, if_false] at h ⊢
        rcases ih (some msg) h with ⟨s2, p2, hmem, hcs, heq⟩
        exact ⟨s2, p2, List.mem_cons_of_mem _ hmem, hcs, heq⟩

/-- Last element of a cons list, as an option falling back to the head. -/
theorem getLast?_cons_match (l : List String) :
    ∀ e : String,
      (e :: l).getLast?
        = match l.getLast? with
          | some x => some x
          | none => some e := by
  induction l with
  | nil => intro e; rfl
  | cons x xs ih =>
    intro e
    rw [List.getLast?_cons_cons, ih x]
    cases xs.getLast? <;> rfl

/-- An exhausted retry run reports `last_error or fallback` with Python
truthiness: the last recorded error when one was recorded (seeded by
`last`), replaced by the fallback message when it is empty or absent. -/
theorem extract_retry_error_last :
    ∀ (steps : List DriverStep) (last : Option String),
      (extract_retry_go steps last).1.success = false →
      (extract_retry_go steps last).1.error
        = some (pyOrStr
            (match (recordedErrors steps).getLast? with
             | some e => some e
             | none => last) "提取配置失败（已重试）") := by
  intro steps
  induction steps with
  | nil => intro last h; rfl
  | cons step rest ih =>
    intro last h
    cases step with
    | view src page =>
      by_cases hc : crashSentinel src
      · simp only [extract_retry_go, recordedErrors, hc, if_true] at h ⊢
        exact ih last h
      · by_cases hs : (extract_config_from_workspace page).success
        · simp [extract_retry_go, hc, hs] at h
        · have her : (extract_config_from_workspace page).error = some "配置数据不完整" :=
            extract_fail_error page (by simpa using hs)
          simp only [extract_retry_go, recordedErrors, hc, hs, Bool.false_eq_true,
            if_false] at h ⊢
          rw [ih (extract_config_from_workspace page).error h, her]
          simp only [Option.getD_some]
          rw [getLast?_cons_match]
          cases (recordedErrors rest).getLast? <;> rfl
    | exc msg =>
      by_cases hc : isCrashMsg msg
      · simp only [extract_retry_go, recordedErrors, hc, if_true] at h ⊢
        exact ih last h
      · simp only [extract_retry_go, recordedErrors, hc, Bool.false_eq_true,
          if_false] at h ⊢
        rw [ih (some msg) h]
        rw [getLast?_cons_match]
        cases (recordedErrors rest).getLast? <;> rfl

/-- C3 counterexample: one loop iteration raising a non-crash exception
with an empty message records the empty string as the last error, yet the
returned failure carries the fallback message, not that last recorded
error — Python's `last_error or fallback` treats the empty string as
falsy, so the claim "the error is the last recorded error" fails on the
code. -/
theorem c3_cex_empty_error :
    (extract_config_with_retry [DriverStep.exc ""]).success = false
    ∧ (recordedErrors [DriverStep.exc ""]).getLast? = some ""
    ∧ (extract_config_with_retry [DriverStep.exc ""]).error ≠ some ""
    ∧ (extract_config_with_retry [DriverStep.exc ""]).error = some "提取配置失败（已重试）" :=
  ⟨by decide, by decide, by decide, by decide⟩

/-- C3 amended: the retry loop performs at most `max_retries` extraction
attempts; it succeeds only when one of the observed, non-crashed pages
yields all four required values nonempty (and returns exactly that
extraction result); and when the retries are exhausted it returns a
failure whose error is the last recorded error provided that error is
nonempty — an empty or absent last recorded error is replaced by the
fallback message. -/
theorem c3_amended_extract_retry (steps : List DriverStep) (max_retries : Nat)
    (hmr : 1 ≤ max_retries) (hlen : steps.length = max_retries) :
    extractAttempts steps ≤ max_retries
    ∧ ((extract_config_with_retry steps).success = true →
        ∃ src page, DriverStep.view src page ∈ steps ∧ crashSentinel src = false
          ∧ extract_config_from_workspace page = extract_config_with_retry steps
          ∧ ∃ cfg, (extract_config_with_retry steps).config = some cfg
              ∧ cfg.csesidx ≠ "" ∧ cfg.config_id ≠ "" ∧ cfg.secure_c_ses ≠ ""
              ∧ cfg.host_c_oses ≠ "")
    ∧ ((extract_config_with_retry steps).success = false →
        ∀ e, (recordedErrors steps).getLast? = some e → e ≠ "" →
          (extract_config_with_retry steps).error = some e)
    ∧ ((extract_config_with_retry steps).success = false →
        ((recordedErrors steps).getLast? = none
          ∨ (recordedErrors steps).getLast? = some "") →
        (extract_config_with_retry steps).error = some "提取配置失败（已重试）") := by
  refine ⟨?_, ?_, ?_, ?_⟩
  · rw [← hlen]
    exact extract_retry_attempts_le steps none
  · intro h
    rcases extract_retry_success_origin steps none h with ⟨src, page, hmem, hcs, heq⟩
    refine ⟨src, page, hmem, hcs, heq, ?_⟩
    have hfs : (extract_config_from_workspace page).success = true := by
      rw [heq]; exact h
    rcases extract_success_fields page hfs with ⟨cfg, hcfg, h1, h2, h3, h4⟩
    refine ⟨cfg, ?_, h1, h2, h3, h4⟩
    show (extract_retry_go steps none).1.config = some cfg
    rw [← heq]
    exact hcfg
  · intro h e hlast hne
    have hel := extract_retry_error_last steps none h
    rw [hlast] at hel
    have hbe : (e == "") = false := by
      simpa using hne
    simp only [pyOrStr, hbe, Bool.false_eq_true, if_false] at hel
    simpa [extract_config_with_retry] using hel
  · intro h hor
    have hel := extract_retry_error_last steps none h
    rcases hor with h0 | h0
    · rw [h0] at hel
      simpa [extract_config_with_retry, pyOrStr] using hel
    · rw [h0] at hel
      simpa [extract_config_with_retry, pyOrStr] using hel

/-- Witness for the amended C3: a single iteration whose page read
raises a non-crash exception performs zero extractions and reports that
(nonempty) message. -/
theorem c3_amended_extract_retry_witness :
    extractAttempts [DriverStep.exc "boom"] ≤ 1
    ∧ ((extract_config_with_retry [DriverStep.exc "boom"]).success = true →
        ∃ src page, DriverStep.view src page ∈ [DriverStep.exc "boom"]
          ∧ crashSentinel src = false
          ∧ extract_config_from_workspace page
              = extract_config_with_retry [DriverStep.exc "boom"]
          ∧ ∃ cfg, (extract_config_with_retry [DriverStep.exc "boom"]).config = some cfg
              ∧ cfg.csesidx ≠ "" ∧ cfg.config_id ≠ "" ∧ cfg.secure_c_ses ≠ ""
              ∧ cfg.host_c_oses ≠ "")
    ∧ ((extract_config_with_retry [DriverStep.exc "boom"]).success = false →
        ∀ e, (recordedErrors [DriverStep.exc "boom"]).getLast? = some e → e ≠ "" →
          (extract_config_with_retry [DriverStep.exc "boom"]).error = some e)
    ∧ ((extract_config_with_retry [DriverStep.exc "boom"]).success = false →
        ((recordedErrors [DriverStep.exc "boom"]).getLast? = none
          ∨ (recordedErrors [DriverStep.exc "boom"]).getLast? = some "") →
        (extract_config_with_retry [DriverStep.exc "boom"]).error
          = some "提取配置失败（已重试）") :=
  c3_amended_extract_retry [DriverStep.exc "boom"] 1 (by decide) (by decide)

/-- C4 counterexample: the ChatGPT provider returns a code from a
message whose sender differs from the requested sender — the claim that
both providers return codes only from sender-matching messages (and
return none once timeout elapses when no message from that sender
exists) fails on the code. -/
theorem c4_cex_sender_ignored :
    gpt_get_verification_code (fun _ => none) "user@test.com" "verify-noreply@google.com"
      [GptPoll.emails [{ fromSender := "attacker@evil.com"
                         htmlContent := some "<p>code 123456</p>", content := "" }]]
      = some "123456"
    ∧ ("attacker@evil.com" : String) ≠ "verify-noreply@google.com" :=
  ⟨by decide, by decide⟩

/-- A mail list with no mail matching both filters makes one scan end
with no match. -/
theorem cfScanMails_no_match (email sender : String) :
    ∀ l : List CfMail, (∀ m ∈ l, cfMailMatches email sender m = false) →
      cfScanMails email sender l = some none := by
  intro l
  induction l with
  | nil => intro _; rfl
  | cons m ms ih =>
    intro hall
    have hm := hall m (List.mem_cons_self m ms)
    simp only [cfMailMatches] at hm
    simp only [cfScanMails, hm, Bool.false_eq_true, if_false]
    exact ih (fun x hx => hall x (List.mem_cons_of_mem m hx))

/-- Cloudflare polling returns none once the timeout elapses when no
poll holds a message from the requested sender to the requested
address. -/
theorem cf_none_of_no_match (email sender : String) :
    ∀ polls : List CfPoll, (∀ p ∈ polls, cfPollHasSenderMatch email sender p = false) →
      cf_get_verification_code email sender polls = none := by
  intro polls
  induction polls with
  | nil => intro _; rfl
  | cons p ps ih =>
    intro hall
    have hrest := ih (fun x hx => hall x (List.mem_cons_of_mem p hx))
    cases p with
    | fail => simpa [cf_get_verification_code] using hrest
    | mails l =>
      have hp := hall (CfPoll.mails l) (List.mem_cons_self _ ps)
      simp only [cfPollHasSenderMatch, List.any_eq_false] at hp
      have hscan := cfScanMails_no_match email sender l (by
        intro m hm
        simpa using hp m hm)
      simp only [cf_get_verification_code, hscan]
      exact hrest

/-- A code produced by one mail-list scan comes from a mail matching
both the requested address and the requested sender. -/
theorem cfScanMails_sound (email sender : String) :
    ∀ (l : List CfMail) (c : String), cfScanMails email sender l = some (some c) →
      ∃ m ∈ l, m.address = email ∧ m.source = sender ∧ m.metadataCode = some c := by
  intro l
  induction l with
  | nil => intro c h; simp [cfScanMails] at h
  | cons m ms ih =>
    intro c h
    simp only [cfScanMails] at h
    by_cases hm : (m.address == email && m.source == sender) = true
    · rw [if_pos hm] at h
      have hm2 := hm
      simp only [Bool.and_eq_true] at hm2
      rcases hm2 with ⟨ha, hs⟩
      cases hcode : m.metadataCode with
      | none => rw [hcode] at h; cases h
      | some code =>
        rw [hcode] at h
        injection h with h1
        injection h1 with h2
        exact ⟨m, List.mem_cons_self m ms, by simpa using ha, by simpa using hs,
          by rw [hcode, h2]⟩
    · rw [if_neg hm] at h
      rcases ih c h with ⟨m2, hmem, hprop⟩
      exact ⟨m2, List.mem_cons_of_mem m hmem, hprop⟩

/-- Soundness of the Cloudflare poll loop: a returned code comes from a
mail matching both filters in one of the polls. -/
theorem cf_get_code_sound (email sender : String) :
    ∀ (polls : List CfPoll) (c : String),
      cf_get_verification_code email sender polls = some c →
      ∃ l, CfPoll.mails l ∈ polls
        ∧ ∃ m ∈ l, m.address = email ∧ m.source = sender ∧ m.metadataCode = some c := by
  intro polls
  induction polls with
  | nil => intro c h; cases h
  | cons p ps ih =>
    intro c h
    cases p with
    | fail =>
      rcases ih c h with ⟨l, hl, hrest⟩
      exact ⟨l, List.mem_cons_of_mem _ hl, hrest⟩
    | mails l =>
      simp only [cf_get_verification_code] at h
      cases hscan : cfScanMails email sender l with
      | none =>
        rw [hscan] at h
        rcases ih c h with ⟨l2, hl2, hrest⟩
        exact ⟨l2, List.mem_cons_of_mem _ hl2, hrest⟩
      | some o =>
        cases o with
        | none =>
          rw [hscan] at h
          rcases ih c h with ⟨l2, hl2, hrest⟩
          exact ⟨l2, List.mem_cons_of_mem _ hl2, hrest⟩
        | some code =>
          rw [hscan] at h
          injection h with hcode
          subst hcode
          exact ⟨l, List.mem_cons_self _ ps,
            cfScanMails_sound email sender l code hscan⟩

/-- The ChatGPT provider's poll loop never reads its sender argument. -/
theorem gpt_sender_irrelevant (findSpan : String → Option String)
    (email s1 s2 : String) :
    ∀ gpolls : List GptPoll,
      gpt_get_verification_code findSpan email s1 gpolls
        = gpt_get_verification_code findSpan email s2 gpolls := by
  intro gpolls
  induction gpolls with
  | nil => rfl
  | cons p ps ih =>
    cases p with
    | fail => simpa [gpt_get_verification_code] using ih
    | emails l =>
      cases l with
      | nil => simpa [gpt_get_verification_code] using ih
      | cons m ms =>
        simp only [gpt_get_verification_code]
        by_cases hh : (gptHtml m == "") = true
        · rw [if_pos hh, if_pos hh]
          exact ih
        · rw [if_neg hh, if_neg hh]
          cases gptExtractCode findSpan (gptHtml m) with
          | some code => rfl
          | none => exact ih

/-- ChatGPT polling returns none once the timeout elapses when no poll
yields an extractable code. -/
theorem gpt_none_of_no_yield (findSpan : String → Option String)
    (email sender : String) :
    ∀ gpolls : List GptPoll, (∀ p ∈ gpolls, gptPollYields findSpan p = false) →
      gpt_get_verification_code findSpan email sender gpolls = none := by
  intro gpolls
  induction gpolls with
  | nil => intro _; rfl
  | cons p ps ih =>
    intro hall
    have hrest := ih (fun x hx => hall x (List.mem_cons_of_mem p hx))
    have hp := hall p (List.mem_cons_self p ps)
    cases p with
    | fail => simpa [gpt_get_verification_code] using hrest
    | emails l =>
      cases l with
      | nil => simpa [gpt_get_verification_code] using hrest
      | cons m ms =>
        simp only [gpt_get_verification_code]
        by_cases hh : (gptHtml m == "") = true
        · rw [if_pos hh]
          exact hrest
        · rw [if_neg hh]
          have hh2 : (gptHtml m == "") = false := by
            simpa using hh
          simp only [gptPollYields, hh2, Bool.not_false, Bool.true_and] at hp
          have hext : gptExtractCode findSpan (gptHtml m) = none :=
            Option.not_isSome_iff_eq_none.mp (by simp [hp])
          rw [hext]
          exact hrest

/-- C4 amended: the Cloudflare provider returns a code only from a
message matching both the requested address and sender, and returns none
once the timeout elapses when no poll holds a message from that sender;
the ChatGPT provider ignores the sender entirely (identical behaviour
for any two sender arguments) and returns none once the timeout elapses
only when no poll yields an extractable code. -/
theorem c4_amended_sender_filtering (email sender sender2 : String)
    (findSpan : String → Option String)
    (polls : List CfPoll) (gpolls : List GptPoll)
    (hcf : ∀ p ∈ polls, cfPollHasSenderMatch email sender p = false)
    (hgpt : ∀ p ∈ gpolls, gptPollYields findSpan p = false) :
    cf_get_verification_code email sender polls = none
    ∧ (∀ (polls2 : List CfPoll) (c : String),
        cf_get_verification_code email sender polls2 = some c →
        ∃ l, CfPoll.mails l ∈ polls2
          ∧ ∃ m ∈ l, m.address = email ∧ m.source = sender ∧ m.metadataCode = some c)
    ∧ gpt_get_verification_code findSpan email sender gpolls = none
    ∧ gpt_get_verification_code findSpan email sender gpolls
        = gpt_get_verification_code findSpan email sender2 gpolls :=
  ⟨cf_none_of_no_match email sender polls hcf,
   fun polls2 c h => cf_get_code_sound email sender polls2 c h,
   gpt_none_of_no_yield findSpan email sender gpolls hgpt,
   gpt_sender_irrelevant findSpan email sender sender2 gpolls⟩

/-- Witness for the amended C4 at a concrete failing poll trace. -/
theorem c4_amended_sender_filtering_witness :
    cf_get_verification_code "a@b.c" "s@t.u" [CfPoll.fail] = none
    ∧ (∀ (polls2 : List CfPoll) (c : String),
        cf_get_verification_code "a@b.c" "s@t.u" polls2 = some c →
        ∃ l, CfPoll.mails l ∈ polls2
          ∧ ∃ m ∈ l, m.address = "a@b.c" ∧ m.source = "s@t.u" ∧ m.metadataCode = some c)
    ∧ gpt_get_verification_code (fun _ => none) "a@b.c" "s@t.u" [GptPoll.fail] = none
    ∧ gpt_get_verification_code (fun _ => none) "a@b.c" "s@t.u" [GptPoll.fail]
        = gpt_get_verification_code (fun _ => none) "a@b.c" "other" [GptPoll.fail] :=
  c4_amended_sender_filtering "a@b.c" "s@t.u" "other" (fun _ => none)
    [CfPoll.fail] [GptPoll.fail] (by decide) (by decide)

/-- C5 counterexample: with `max_crash_retries = 3` and a page that
crashes on every observation while recovery always succeeds, recovery is
invoked only twice — not three times — before the false return, because
the crash counter is checked against the bound before recovering. -/
theorem c5_cex_recovery_count :
    wait_for_workspace
      [WaitObs.page "crashed" "", WaitObs.page "crashed" "", WaitObs.page "crashed" ""]
      (fun _ => true) 3 = (false, 2)
    ∧ (2 : Nat) ≠ 3 :=
  ⟨by decide, by decide⟩

/-- Recovery-count bound for the waiting loop: starting from crash count
`cc` with `k` recoveries already performed, at most `mcr - cc - 1`
further recoveries happen. -/
theorem wait_go_recoveries_le (recov : Nat → Bool) (mcr : Nat) :
    ∀ (obs : List WaitObs) (cc k : Nat),
      (wait_go recov mcr obs cc k).2 ≤ k + (mcr - cc - 1) := by
  intro obs
  induction obs with
  | nil => intro cc k; simp [wait_go]
  | cons o rest ih =>
    intro cc k
    simp only [wait_go]
    by_cases hcr : isCrashObs o = true
    · rw [if_pos hcr]
      by_cases hge : mcr ≤ cc + 1
      · rw [if_pos hge]
        simp
      · rw [if_neg hge]
        by_cases hr : recov k = true
        · rw [if_pos hr]
          have := ih (cc + 1) (k + 1)
          omega
        · rw [if_neg hr]
          omega
    · rw [if_neg hcr]
      cases o with
      | page src url =>
        by_cases hu : isWorkspaceUrl url = true
        · simp only [hu, if_true]
          omega
        · simp only [hu, Bool.false_eq_true, if_false]
          exact ih cc k
      | exc msg => exact ih cc k

/-- On a run where every observation is a crash and recovery always
succeeds, the loop returns false after performing exactly
`mcr - cc - 1` further recoveries. -/
theorem wait_go_all_crash (recov : Nat → Bool) (mcr : Nat)
    (hrecov : ∀ k, recov k = true) :
    ∀ (obs : List WaitObs) (cc k : Nat),
      (∀ o ∈ obs, isCrashObs o = true) → cc < mcr → mcr ≤ cc + obs.length →
      wait_go recov mcr obs cc k = (false, k + (mcr - cc - 1)) := by
  intro obs
  induction obs with
  | nil =>
    intro cc k _ hlt hle
    simp at hle
    omega
  | cons o rest ih =>
    intro cc k hall hlt hle
    have ho := hall o (List.mem_cons_self o rest)
    simp only [wait_go, ho, if_true]
    by_cases hge : mcr ≤ cc + 1
    · rw [if_pos hge]
      have : mcr = cc + 1 := by omega
      subst this
      simp
    · rw [if_neg hge]
      rw [hrecov k, if_pos rfl]
      have hres := ih (cc + 1) (k + 1)
        (fun x hx => hall x (List.mem_cons_of_mem o hx)) (by omega) (by
          simp only [List.length_cons] at hle
          omega)
      rw [hres]
      have h2 : k + 1 + (mcr - (cc + 1) - 1) = k + (mcr - cc - 1) := by omega
      rw [h2]

/-- C5 amended: during workspace-wait crash recovery is invoked at most
`max_crash_retries - 1` times before the false return, and on any run
where every observation is a crash and recovery always succeeds (with at
least `max_crash_retries` loop iterations available) it is invoked
exactly `max_crash_retries - 1` times before `wait_for_workspace`
returns false. -/
theorem c5_amended_recovery_count (obs : List WaitObs) (recov : Nat → Bool)
    (mcr : Nat) (hmcr : 1 ≤ mcr) :
    (wait_for_workspace obs recov mcr).2 ≤ mcr - 1
    ∧ ((∀ o ∈ obs, isCrashObs o = true) → (∀ k, recov k = true) → mcr ≤ obs.length →
        wait_for_workspace obs recov mcr = (false, mcr - 1)) := by
  constructor
  · have := wait_go_recoveries_le recov mcr obs 0 0
    simpa [wait_for_workspace] using this
  · intro hall hrecov hlen
    have := wait_go_all_crash recov mcr hrecov obs 0 0 hall (by omega) (by omega)
    simpa [wait_for_workspace] using this

/-- Witness for the amended C5: three all-crash iterations with
`max_crash_retries = 3` yield exactly two recovery invocations. -/
theorem c5_amended_recovery_count_witness :
    (wait_for_workspace
        [WaitObs.page "crashed" "", WaitObs.page "crashed" "", WaitObs.page "crashed" ""]
        (fun _ => true) 3).2 ≤ 3 - 1
    ∧ ((∀ o ∈ [WaitObs.page "crashed" "", WaitObs.page "crashed" "",
          WaitObs.page "crashed" ""], isCrashObs o = true) →
        (∀ k : Nat, (fun _ => true) k = true) →
        3 ≤ [WaitObs.page "crashed" "", WaitObs.page "crashed" "",
          WaitObs.page "crashed" ""].length →
        wait_for_workspace
          [WaitObs.page "crashed" "", WaitObs.page "crashed" "", WaitObs.page "crashed" ""]
          (fun _ => true) 3 = (false, 3 - 1)) :=
  c5_amended_recovery_count
    [WaitObs.page "crashed" "", WaitObs.page "crashed" "", WaitObs.page "crashed" ""]
    (fun _ => true) 3 (by decide)

/-- C6 counterexample: recovery reports success while two tabs remain
open, because the failing close of the old tab is swallowed — the claim
that success implies exactly one open tab (and that any raising step
yields false) fails on the code. -/
theorem c6_cex_two_tabs :
    (recover_from_crash { tabs := [{ handle := "t1", url := "a" }], focused := some "t1" }
      { newHandle := some "t2", switchFails := fun _ => false
        closeFails := fun hdl => hdl == "t1", navFails := false }
      "https://business.gemini.google/").1 = true
    ∧ (recover_from_crash { tabs := [{ handle := "t1", url := "a" }], focused := some "t1" }
        { newHandle := some "t2", switchFails := fun _ => false
          closeFails := fun hdl => hdl == "t1", navFails := false }
        "https://business.gemini.google/").2.tabs.length ≠ 1 :=
  ⟨by decide, by decide⟩

/-- Tabs surviving the best-effort close loop: exactly those whose handle
is not listed, or whose switch or close raised. -/
theorem closeOldTabs_tabs (env : RecoverEnv) :
    ∀ (hs : List String) (b : Browser),
      (closeOldTabs env hs b).tabs
        = b.tabs.filter (fun t =>
            !(hs.contains t.handle) || env.switchFails t.handle
              || env.closeFails t.handle) := by
  intro hs
  induction hs with
  | nil =>
    intro b
    simp [closeOldTabs]
  | cons hd rest ih =>
    intro b
    simp only [closeOldTabs]
    by_cases hsw : env.switchFails hd = true
    · rw [if_pos hsw, ih]
      apply List.filter_congr
      intro t _
      by_cases hth : (t.handle == hd) = true
      · have hteq : t.handle = hd := by
          exact eq_of_beq hth
        rw [hteq, hsw]
        simp [List.contains_cons]
      · have hne : t.handle ≠ hd := by simpa using hth
        simp [List.contains_cons, hne]
    · rw [if_neg hsw]
      by_cases hcl : env.closeFails hd = true
      · rw [if_pos hcl, ih]
        apply List.filter_congr
        intro t _
        by_cases hth : (t.handle == hd) = true
        · have hteq : t.handle = hd := by
            exact eq_of_beq hth
          rw [hteq, hcl]
          simp [List.contains_cons]
        · have hne : t.handle ≠ hd := by simpa using hth
          simp [List.contains_cons, hne]
      · rw [if_neg hcl, ih]
        rw [List.filter_filter]
        apply List.filter_congr
        intro t _
        by_cases hth : (t.handle == hd) = true
        · have hteq : t.handle = hd := by
            exact eq_of_beq hth
          have hsw2 : env.switchFails hd = false := by
            simpa using hsw
          have hcl2 : env.closeFails hd = false := by
            simpa using hcl
          rw [hteq]
          simp [List.contains_cons, hsw2, hcl2]
        · have hne : t.handle ≠ hd := by simpa using hth
          simp [List.contains_cons, hne]

/-- Recovery frame property when a fresh new handle was identified: on
success the final state holds the new tab, focused and navigated, plus
exactly the old tabs whose best-effort close was swallowed; one tab when
all closes succeed; false when the unswallowed steps raise. -/
theorem recover_frame_of_some (b : Browser) (env : RecoverEnv) (target hnew : String)
    (hn : env.newHandle = some hnew) (hfresh : ∀ t ∈ b.tabs, t.handle ≠ hnew) :
    ((recover_from_crash b env target).1 = true →
        (recover_from_crash b env target).2.tabs
          = b.tabs.filter
              (fun t => env.switchFails t.handle || env.closeFails t.handle)
            ++ [{ handle := hnew, url := target }]
        ∧ (recover_from_crash b env target).2.focused = some hnew)
    ∧ ((∀ t ∈ b.tabs, env.switchFails t.handle = false ∧ env.closeFails t.handle = false) →
        (recover_from_crash b env target).1 = true →
        (recover_from_crash b env target).2.tabs = [{ handle := hnew, url := target }])
    ∧ ((env.switchFails hnew = true ∨ env.navFails = true) →
        (recover_from_crash b env target).1 = false) := by
  by_cases hsw : env.switchFails hnew = true
  · refine ⟨?_, ?_, ?_⟩
    · intro h1
      exfalso
      simp [recover_from_crash, hn, hsw] at h1
    · intro _ h1
      exfalso
      simp [recover_from_crash, hn, hsw] at h1
    · intro _
      simp [recover_from_crash, hn, hsw]
  · by_cases hnav : env.navFails = true
    · refine ⟨?_, ?_, ?_⟩
      · intro h1
        exfalso
        simp [recover_from_crash, hn, hsw, hnav] at h1
      · intro _ h1
        exfalso
        simp [recover_from_crash, hn, hsw, hnav] at h1
      · intro _
        simp [recover_from_crash, hn, hsw, hnav]
    · have htabs : (recover_from_crash b env target).2.tabs
          = b.tabs.filter
              (fun t => env.switchFails t.handle || env.closeFails t.handle)
            ++ [{ handle := hnew, url := target }] := by
        simp only [recover_from_crash, hn, hsw, hnav, Bool.false_eq_true, if_false]
        rw [closeOldTabs_tabs]
        rw [List.filter_append, List.map_append]
        congr 1
        · rw [show (b.tabs.filter (fun t =>
              !((b.tabs.map (fun t => t.handle)).contains t.handle)
                || env.switchFails t.handle || env.closeFails t.handle))
              = b.tabs.filter
                  (fun t => env.switchFails t.handle || env.closeFails t.handle) from ?_]
          · apply List.map_congr_left ?_ |>.trans (List.map_id _)
            intro t ht
            have htmem : t ∈ b.tabs := List.mem_of_mem_filter ht
            have hne : (t.handle == hnew) = false := by
              have := hfresh t htmem
              simpa using this
            simp [hne]
          · apply List.filter_congr
            intro t ht
            have hex : ∃ a ∈ b.tabs, a.handle = t.handle := ⟨t, ht, rfl⟩
            simp [hex]
        · have hex : ¬ ∃ a ∈ b.tabs, a.handle = hnew := by
            rintro ⟨a, ha, he⟩
            exact hfresh a ha he
          simp [hex]
      have hfoc : (recover_from_crash b env target).2.focused = some hnew := by
        simp [recover_from_crash, hn, hsw, hnav]
      refine ⟨fun _ => ⟨htabs, hfoc⟩, ?_, ?_⟩
      · intro hall _
        rw [htabs]
        have : b.tabs.filter
            (fun t => env.switchFails t.handle || env.closeFails t.handle) = [] := by
          rw [List.filter_eq_nil_iff]
          intro t ht
          rcases hall t ht with ⟨h1, h2⟩
          simp [h1, h2]
        rw [this]
        rfl
      · intro hor
        rcases hor with hor | hor
        · rw [hor] at hsw
          exact absurd rfl hsw
        · rw [hor] at hnav
          exact absurd rfl hnav

/-- C6 amended: when recovery reports success, the final browser state
holds the new tab, focused and navigated to the target, together with
exactly those previously known tabs whose best-effort close was
swallowed by a raising switch or close; when every old tab closes
cleanly, exactly one tab remains.  Recovery reports false whenever a new
tab handle cannot be identified (the window set is then left unchanged)
or an unswallowed step — switching to the new tab, the final
navigation — raises. -/
theorem c6_amended_recovery_frame (b : Browser) (env : RecoverEnv) (target hnew : String)
    (hfresh : ∀ t ∈ b.tabs, t.handle ≠ hnew) :
    (env.newHandle = none → recover_from_crash b env target = (false, b))
    ∧ (env.newHandle = some hnew →
        ((recover_from_crash b env target).1 = true →
            (recover_from_crash b env target).2.tabs
              = b.tabs.filter
                  (fun t => env.switchFails t.handle || env.closeFails t.handle)
                ++ [{ handle := hnew, url := target }]
            ∧ (recover_from_crash b env target).2.focused = some hnew)
        ∧ ((∀ t ∈ b.tabs, env.switchFails t.handle = false
              ∧ env.closeFails t.handle = false) →
            (recover_from_crash b env target).1 = true →
            (recover_from_crash b env target).2.tabs = [{ handle := hnew, url := target }])
        ∧ ((env.switchFails hnew = true ∨ env.navFails = true) →
            (recover_from_crash b env target).1 = false)) := by
  constructor
  · intro hnone
    simp [recover_from_crash, hnone]
  · intro hn
    exact recover_frame_of_some b env target hnew hn hfresh

/-- Witness for the amended C6: a clean concrete recovery has its new
handle identified and ends with exactly the new tab, focused and
navigated. -/
theorem c6_amended_recovery_frame_witness :
    (envCleanRecover.newHandle = none →
        recover_from_crash browserOneTab envCleanRecover "u" = (false, browserOneTab))
    ∧ (envCleanRecover.newHandle = some "t2" →
        ((recover_from_crash browserOneTab envCleanRecover "u").1 = true →
            (recover_from_crash browserOneTab envCleanRecover "u").2.tabs
              = browserOneTab.tabs.filter
                  (fun t => envCleanRecover.switchFails t.handle
                    || envCleanRecover.closeFails t.handle)
                ++ [{ handle := "t2", url := "u" }]
            ∧ (recover_from_crash browserOneTab envCleanRecover "u").2.focused = some "t2")
        ∧ ((∀ t ∈ browserOneTab.tabs, envCleanRecover.switchFails t.handle = false
              ∧ envCleanRecover.closeFails t.handle = false) →
            (recover_from_crash browserOneTab envCleanRecover "u").1 = true →
            (recover_from_crash browserOneTab envCleanRecover "u").2.tabs
              = [{ handle := "t2", url := "u" }])
        ∧ ((envCleanRecover.switchFails "t2" = true ∨ envCleanRecover.navFails = true) →
            (recover_from_crash browserOneTab envCleanRecover "u").1 = false)) :=
  c6_amended_recovery_frame browserOneTab envCleanRecover "u" "t2" (by decide)

end GeminiBusiness
